import Mathlib

/-!
Verification of the MataOCR frontend against its natural-language
specification.

The development shallowly embeds the TypeScript sources:
- frontend/src/lib/api.ts (fetch-based client `MataOCRAPI`, helpers
  `validateFile`, `formatFileSize`, and the axios-based `MataOCRClient`
  that is concatenated into the same file),
- frontend/src/components/features/OCRDemo.tsx (the named demo component),
- the duplicated OCRDemo copy kept in the repository (src/unnamed/part_001),
- the backend Dockerfile (src/unnamed/part_000).

JavaScript numbers are modelled as rationals (exact arithmetic; binary
floating-point rounding is out of scope), strings as Lean `String`s,
`a || b` on strings as "b when a is undefined or empty", and the network
as an explicit outcome parameter.  Each client operation returns both its
result and the trace of HTTP requests it issues, so that claims about
request shape, retries and cancellation are statements about the trace.
-/

namespace MataOCR

/-- JavaScript `a || d` for an optional string `a`: the default is taken
when `a` is `undefined` or the empty string (both falsy). -/
def jsStrOr (v : Option String) (d : String) : String :=
  match v with
  | some s => if s = "" then d else s
  | none => d

/-- JavaScript truthiness of an optional string: defined and non-empty. -/
def strTruthy : Option String → Bool
  | some s => !(s == "")
  | none => false

/-- JavaScript truthiness of an optional number: defined and non-zero
(NaN does not exist in the exact-arithmetic model). -/
def numTruthy : Option ℚ → Bool
  | some q => !(q == 0)
  | none => false

/-- JavaScript `s.includes(pat)`: the pattern occurs as a contiguous
substring, i.e. its character list is an infix of the character list of
`s`. -/
def strIncludes (s pat : String) : Bool :=
  decide (pat.data <:+: s.data)

/-- JavaScript `s.split('-')[0]`: the prefix of `s` before the first
dash (`s` itself when there is none). -/
def beforeFirstDash (s : String) : String :=
  String.mk (s.data.takeWhile (fun c => c ≠ '-'))

/-- JavaScript `x.toFixed(1)` for non-negative `x`, under exact
arithmetic: round half up to one decimal and print. -/
def toFixed1 (q : ℚ) : String :=
  let n := ⌊q * 10 + 1 / 2⌋
  toString (n / 10) ++ "." ++ toString (n % 10)

/-- Numeric value of `parseFloat(x.toFixed(2))` for non-negative `x`,
under exact arithmetic: `x` rounded half up to two decimal places. -/
def round2 (q : ℚ) : ℚ :=
  ((⌊q * 100 + 1 / 2⌋ : ℤ) : ℚ) / 100

/-! ## Data model (DTOs from api.ts / OCRDemo.tsx) -/

/-- A browser `File`: the three properties the frontend reads. -/
structure File where
  name : String
  size : ℕ
  type : String
deriving DecidableEq, Repr

/-- One entry of `OCRResult.bounding_boxes`. -/
structure BoundingBox where
  text : String
  bbox : ℚ × ℚ × ℚ × ℚ
  confidence : ℚ
deriving DecidableEq, Repr

/-- The `metadata` record of `OCRResult`. -/
structure OCRMetadata where
  file_size : ℕ
  file_type : String
  processing_engine : String
  document_type : String
  language_requested : String
  project_id : Option String
  confidence_threshold : ℚ
  meta_learning_version : String
deriving DecidableEq, Repr

/-- The `OCRResult` interface of api.ts / OCRDemo.tsx. -/
structure OCRResult where
  success : Bool
  text : String
  confidence : ℚ
  language_detected : String
  processing_time : ℚ
  bounding_boxes : List BoundingBox
  metadata : OCRMetadata
  meta_learning_applied : Bool
deriving DecidableEq, Repr

/-- Response type of `MataOCRAPI.uploadFile`. -/
structure UploadResponse where
  filename : String
  file_size : ℕ
  content_type : String
  upload_time : String
  project_id : Option String
deriving DecidableEq, Repr

/-! ## HTTP model -/

inductive HttpMethod where
  | GET
  | POST
deriving DecidableEq, Repr

/-- A value appended to a `FormData`: a file or a string field. -/
inductive FormValue where
  | file (f : File)
  | str (s : String)
deriving DecidableEq, Repr

/-- The body of an issued request. -/
inductive RequestBody where
  | empty
  | jsonBody (payload : String)
  | formData (fields : List (String × FormValue))
deriving DecidableEq, Repr

/-- One HTTP request as issued by the frontend: method, base URL, path,
query parameters, headers, body, plus any client-side cancellation that
was attached (an `AbortSignal.timeout` on the fetch call, or an axios
config timeout). -/
structure Request where
  base : String
  method : HttpMethod
  path : String
  query : List (String × String)
  headers : List (String × String)
  body : RequestBody
  signalTimeoutMs : Option ℕ
  clientTimeoutMs : Option ℕ
deriving DecidableEq, Repr

/-- Does the parameter list carry a parameter named `k`? -/
def hasParam (ps : List (String × String)) (k : String) : Bool :=
  ps.any (fun p => p.1 == k)

/-- Number of requests in a trace that target a given path. -/
def countToPath (tr : List Request) (p : String) : ℕ :=
  (tr.filter (fun r => r.path == p)).length

/-- A request that attaches neither an abort signal nor a client timeout. -/
def plainRequest (r : Request) : Bool :=
  r.signalTimeoutMs == none && r.clientTimeoutMs == none

/-- Outcome of one `fetch` (or axios) call, supplied by the environment:
a 200-range response with parsed JSON body `α`, a non-OK HTTP response
(whose error JSON may carry a `detail` string), or a network failure in
which `fetch` rejects with an error message. -/
inductive FetchOutcome (α : Type) where
  | ok (body : α)
  | httpError (status : ℕ) (detail : Option String)
  | networkError (msg : String)

/-! ## api.ts: environment and base-URL resolution -/

/-- The execution environment the frontend reads: `window.location.hostname`
when running in a browser (`none` models `typeof window === 'undefined'`),
and the `NEXT_PUBLIC_API_URL` environment variable. -/
structure BrowserEnv where
  hostname : Option String
  apiUrl : Option String
deriving DecidableEq, Repr

/-- api.ts line 4: `process.env.NEXT_PUBLIC_API_URL || 'http://localhost:8000'`. -/
def apiBaseUrlLib (e : BrowserEnv) : String :=
  jsStrOr e.apiUrl "http://localhost:8000"

/-- `getApiBaseUrl` of the named OCRDemo component (OCRDemo.tsx lines 8-30):
Codespaces hosts are rewritten to a forwarded-port URL, production hosts
fall back to a placeholder backend, everything else to localhost. -/
def getApiBaseUrlDemo (e : BrowserEnv) : String :=
  match e.hostname with
  | some host =>
    if strIncludes host "github.dev" || strIncludes host "gitpod.io" then
      "https://" ++ beforeFirstDash host ++ "-8000.app.github.dev"
    else if strIncludes host "vercel.app" || strIncludes host "mataocr.com" then
      jsStrOr e.apiUrl "https://your-production-backend.com"
    else
      jsStrOr e.apiUrl "http://localhost:8000"
  | none => jsStrOr e.apiUrl "http://localhost:8000"

/-- `getApiBaseUrl` of the duplicated OCRDemo copy (part_001 lines 7-19):
production hosts get a hard-coded placeholder (ignoring the environment
variable), everything else localhost. -/
def getApiBaseUrlCopy (e : BrowserEnv) : String :=
  match e.hostname with
  | some host =>
    if strIncludes host "vercel.app" || strIncludes host "mataocr.com" then
      "https://your-backend-url.com"
    else
      jsStrOr e.apiUrl "http://localhost:8000"
  | none => jsStrOr e.apiUrl "http://localhost:8000"

/-! ## api.ts: the fetch-based client `MataOCRAPI` -/

/-- The private `request` helper (api.ts lines 66-86): one fetch to
`baseURL ++ endpoint` with a JSON content type; a non-OK response throws
`errorData.detail || 'API Error: <status>'`; a network failure
propagates.  The second component is the trace of issued requests. -/
def requestHelper {α : Type} (baseURL endpoint : String) (method : HttpMethod)
    (body : RequestBody) (extraHeaders : List (String × String))
    (server : FetchOutcome α) : Except String α × List Request :=
  let req : Request :=
    { base := baseURL, method := method, path := endpoint, query := []
      headers := ("Content-Type", "application/json") :: extraHeaders
      body := body, signalTimeoutMs := none, clientTimeoutMs := none }
  match server with
  | .ok v => (.ok v, [req])
  | .httpError s d => (.error (jsStrOr d ("API Error: " ++ toString s)), [req])
  | .networkError m => (.error m, [req])

/-- The `options` argument of `MataOCRAPI.processOCR`. -/
structure ProcessOCROptions where
  language : Option String := none
  project_id : Option String := none
  confidence_threshold : Option ℚ := none
deriving DecidableEq, Repr

/-- `if (options.language) params.append('language', options.language)`:
the parameter is appended only when the optional string is truthy. -/
def optStrParam (name : String) (v : Option String) : List (String × String) :=
  match v with
  | some s => if s = "" then [] else [(name, s)]
  | none => []

/-- `if (options.confidence_threshold) params.append(...)`: the parameter
is appended only when the optional number is truthy (non-zero). -/
def optNumParam (name : String) (v : Option ℚ) : List (String × String) :=
  match v with
  | some q => if q = 0 then [] else [(name, toString q)]
  | none => []

/-- Query parameters built by `processOCR` (api.ts lines 115-120). -/
def processOCRParams (o : ProcessOCROptions) : List (String × String) :=
  optStrParam "language" o.language ++
    optStrParam "project_id" o.project_id ++
    optNumParam "confidence_threshold" o.confidence_threshold

/-- The single request issued by `MataOCRAPI.processOCR` (api.ts lines
122-128): POST to `/ocr/process` with the options as query parameters and
the file as the only multipart form-data field. -/
def processOCRRequest (baseURL : String) (f : File) (o : ProcessOCROptions) :
    Request :=
  { base := baseURL, method := .POST, path := "/ocr/process"
    query := processOCRParams o, headers := []
    body := .formData [("file", .file f)]
    signalTimeoutMs := none, clientTimeoutMs := none }

/-- `MataOCRAPI.processOCR` (api.ts lines 103-136): issue the request; a
200 response parses as an `OCRResult`; a non-OK response throws
`errorData.detail || 'OCR Processing failed: <status>'`. -/
def processOCR (baseURL : String) (f : File) (o : ProcessOCROptions)
    (server : FetchOutcome OCRResult) : Except String OCRResult × List Request :=
  let req := processOCRRequest baseURL f o
  match server with
  | .ok r => (.ok r, [req])
  | .httpError s d =>
    (.error (jsStrOr d ("OCR Processing failed: " ++ toString s)), [req])
  | .networkError m => (.error m, [req])

/-- `MataOCRAPI.uploadFile` (api.ts lines 139-164): POST `/upload` with
the file and, when truthy, the project id as form-data fields. -/
def uploadFile (baseURL : String) (f : File) (pid : Option String)
    (server : FetchOutcome UploadResponse) :
    Except String UploadResponse × List Request :=
  let fields :=
    [("file", FormValue.file f)] ++
      (match pid with
       | some p => if p = "" then [] else [("project_id", FormValue.str p)]
       | none => [])
  let req : Request :=
    { base := baseURL, method := .POST, path := "/upload", query := []
      headers := [], body := .formData fields
      signalTimeoutMs := none, clientTimeoutMs := none }
  match server with
  | .ok v => (.ok v, [req])
  | .httpError s d => (.error (jsStrOr d ("Upload failed: " ++ toString s)), [req])
  | .networkError m => (.error m, [req])

/-! ## api.ts: validateFile and formatFileSize helpers -/

/-- Default of `parseInt(process.env.NEXT_PUBLIC_MAX_FILE_SIZE || '10485760')`. -/
def maxSizeDefault : ℕ := 10485760

/-- Default of `(process.env.NEXT_PUBLIC_ALLOWED_TYPES || '...').split(',')`. -/
def allowedTypesDefault : List String :=
  ["image/jpeg", "image/png", "image/jpg", "application/pdf"]

/-- Result record of `validateFile`. -/
structure ValidationResult where
  valid : Bool
  error : Option String
deriving DecidableEq, Repr

/-- `validateFile` (api.ts lines 207-226), parameterised by the
configured maximum size and allowed MIME types: too-large files are
rejected first, then disallowed types, everything else is valid. -/
def validateFile (maxSize : ℕ) (allowedTypes : List String) (f : File) :
    ValidationResult :=
  if maxSize < f.size then
    { valid := false
      error := some ("File too large. Maximum size: " ++
        toFixed1 ((maxSize : ℚ) / 1024 / 1024) ++ "MB") }
  else if !(allowedTypes.contains f.type) then
    { valid := false
      error := some ("File type not supported. Allowed: " ++
        String.intercalate ", " allowedTypes) }
  else
    { valid := true, error := none }

/-- `validateFile` of the named OCRDemo component (OCRDemo.tsx lines
84-103): same checks with hard-coded 10MB limit and type list, different
message texts. -/
def demoValidateFile (f : File) : ValidationResult :=
  if 10 * 1024 * 1024 < f.size then
    { valid := false, error := some "File too large. Maximum size is 10MB." }
  else if !(allowedTypesDefault.contains f.type) then
    { valid := false
      error := some "File type not supported. Please use JPG, PNG, or PDF." }
  else
    { valid := true, error := none }

/-- The unit array of `formatFileSize`. -/
def sizes : List String := ["Bytes", "KB", "MB", "GB"]

/-- Rendered output of `formatFileSize`: the numeric value produced by
`parseFloat((bytes / Math.pow(k, i)).toFixed(2))` and the chosen unit. -/
structure SizeDisplay where
  value : ℚ
  unit : String
deriving DecidableEq, Repr

/-- `formatFileSize` (api.ts lines 228-234; the copy in part_001 lines
94-100 is textually identical): zero is special-cased, otherwise the
unit index is `Math.floor(Math.log(bytes) / Math.log(1024))`, which for
positive integers under exact arithmetic is `Nat.log 1024 bytes` (the
bridge to the real logarithm is proved below). -/
def formatFileSize (bytes : ℕ) : SizeDisplay :=
  if bytes = 0 then { value := 0, unit := "Bytes" }
  else
    let i := Nat.log 1024 bytes
    { value := round2 ((bytes : ℚ) / (1024 : ℚ) ^ i)
      unit := sizes.getD i "" }

/-! ## OCRDemo.tsx: the named demo component -/

/-- The component state touched by the demo's `processOCR` handler
(drag/bounding-box toggles are orthogonal and omitted). -/
structure DemoState where
  isProcessing : Bool
  selectedFile : Option File
  selectedLanguage : String
  result : Option OCRResult
  error : Option String
deriving DecidableEq, Repr

/-- `processOCR` of the named OCRDemo component (OCRDemo.tsx lines
145-202): without a selected file it returns immediately; otherwise one
POST to `/ocr/process` with file, language and a fixed threshold of 0.7
as form-data fields (no query string).  A non-OK response, a network
failure, or a parsed result with `success: false` all reach the catch
block, which sets a visible error message; a successful result is
stored.  `finally` clears `isProcessing`. -/
def demoProcessOCR (base : String) (st : DemoState)
    (server : FetchOutcome OCRResult) : DemoState × List Request :=
  match st.selectedFile with
  | none => (st, [])
  | some f =>
    let req : Request :=
      { base := base, method := .POST, path := "/ocr/process", query := []
        headers := []
        body := .formData [("file", .file f),
          ("language", .str st.selectedLanguage),
          ("confidence_threshold", .str "0.7")]
        signalTimeoutMs := none, clientTimeoutMs := none }
    let failWith (m : String) : DemoState :=
      { st with
        isProcessing := false
        result := none
        error := some ("Failed to connect to OCR service: " ++ m) }
    match server with
    | .ok r =>
      if r.success then
        ({ st with isProcessing := false, error := none, result := some r }, [req])
      else
        (failWith "OCR processing was not successful", [req])
    | .httpError s d =>
      (failWith (jsStrOr d ("OCR Processing failed: " ++ toString s)), [req])
    | .networkError m => (failWith m, [req])

/-! ## The duplicated OCRDemo copy (src/unnamed/part_001) -/

/-- The availability probe of the duplicated demo (part_001 lines
206-216): GET `/health` with `AbortSignal.timeout(3000)` attached. -/
def healthCheckRequest (base : String) : Request :=
  { base := base, method := .GET, path := "/health", query := []
    headers := [], body := .empty
    signalTimeoutMs := some 3000, clientTimeoutMs := none }

/-- Mock text chosen by the duplicated demo by selected language
(part_001 lines 224-247). -/
def mockTextCopy (lang : String) : String :=
  if lang = "ms" then
    "KERAJAAN MALAYSIA\nMyKad No: 123456-78-9012\nNama: Ahmad bin Abdullah\nAlamat: No. 123, Jalan Bunga Raya\n        Taman Sri Malaysia\n        50000 Kuala Lumpur\nTarikh Lahir: 15 Ogos 1985"
  else if lang = "zh" then
    "马来西亚政府\n身份证号码: 123456-78-9012\n姓名: 陈小明\n地址: 马来西亚吉隆坡\n     斯里马来西亚花园\n     布嘉拉雅路123号"
  else
    "GOVERNMENT OF MALAYSIA\nID Card No: 123456-78-9012\nName: Ahmad bin Abdullah\nAddress: No. 123, Jalan Bunga Raya\n         Taman Sri Malaysia\n         50000 Kuala Lumpur"

/-- The hard-coded mock OCR result of the duplicated demo
(part_001 lines 249-270). -/
def mockResultCopy (lang : String) (f : Option File) : OCRResult :=
  { success := true
    text := mockTextCopy lang
    confidence := 0.94
    language_detected := lang
    processing_time := 2.1
    bounding_boxes :=
      [{ text := "KERAJAAN MALAYSIA", bbox := (10, 10, 200, 30), confidence := 0.96 },
       { text := "MyKad No: 123456-78-9012", bbox := (10, 40, 250, 60), confidence := 0.93 },
       { text := "Nama: Ahmad bin Abdullah", bbox := (10, 70, 300, 90), confidence := 0.91 }]
    metadata :=
      { file_size := (f.map (fun x => x.size)).getD 0
        file_type := (f.map (fun x => x.type)).getD "image/jpeg"
        processing_engine := "demo_mode_paddleocr"
        document_type := "malaysian_id"
        language_requested := lang
        project_id := none
        confidence_threshold := 0.8
        meta_learning_version := "1.0_demo" }
    meta_learning_applied := true }

/-- The notice set alongside the mock result (part_001 line 275). -/
def demoModeNotice : String :=
  "Demo Mode: Backend not available. Showing sample Malaysian OCR results."

/-- State after the duplicated demo falls back to mock data
(`simulateMockOCR`, part_001 lines 219-276): the mock result is stored
and the demo-mode notice shown as the error message. -/
def copyMockFallback (st : DemoState) (f : File) : DemoState :=
  { st with
    isProcessing := false
    result := some (mockResultCopy st.selectedLanguage (some f))
    error := some demoModeNotice }

/-- `processOCR` of the duplicated demo copy (part_001 lines 149-203):
first probe `/health` (3s abort signal); if the backend is unavailable,
fall back to mock data.  Otherwise POST `/ocr/process` with language and
confidence_threshold 0.8 as query parameters and the file as form data;
a 200 response is stored without further checks, and any thrown error is
caught by falling back to mock data. -/
def copyProcessOCR (base : String) (st : DemoState) (avail : Bool)
    (server : FetchOutcome OCRResult) : DemoState × List Request :=
  match st.selectedFile with
  | none => (st, [])
  | some f =>
    let hreq := healthCheckRequest base
    if !avail then
      (copyMockFallback st f, [hreq])
    else
      let req : Request :=
        { base := base, method := .POST, path := "/ocr/process"
          query := [("language", st.selectedLanguage), ("confidence_threshold", "0.8")]
          headers := [], body := .formData [("file", .file f)]
          signalTimeoutMs := none, clientTimeoutMs := none }
      match server with
      | .ok r =>
        ({ st with isProcessing := false, error := none, result := some r },
          [hreq, req])
      | .httpError _ _ => (copyMockFallback st f, [hreq, req])
      | .networkError _ => (copyMockFallback st f, [hreq, req])

/-! ## api.ts: the axios-based `MataOCRClient` -/

/-- The axios instance configuration built in the `MataOCRClient`
constructor (api.ts concatenated copy, lines 303-312): base URL from the
environment, JSON content type, and a 30-second client timeout. -/
structure AxiosConfig where
  baseURL : String
  headers : List (String × String)
  timeoutMs : Option ℕ
deriving DecidableEq, Repr

/-- The configuration `axios.create` receives. -/
def mataOCRClientConfig (e : BrowserEnv) : AxiosConfig :=
  { baseURL := jsStrOr e.apiUrl "http://localhost:8000"
    headers := [("Content-Type", "application/json")]
    timeoutMs := some 30000 }

/-- The three shapes of an axios error object as the response
interceptor distinguishes them: the server responded with an error
status (whose JSON may carry `detail` and `message` strings), the
request was sent but no response arrived, or setup failed. -/
inductive AxiosFailure where
  | response (detail : Option String) (msg : Option String) (status : ℕ)
  | request
  | setup (m : String)

/-- What the interceptor does with an error. -/
structure InterceptorOutcome where
  toast : String
  rejected : Bool
deriving DecidableEq, Repr

/-- The error branch of the response interceptor (api.ts concatenated
copy, lines 330-346): pick a toast message by error shape and reject the
error back to the caller. -/
def responseErrorInterceptor : AxiosFailure → InterceptorOutcome
  | .response d m _ =>
    { toast := jsStrOr d (jsStrOr m "An error occurred"), rejected := true }
  | .request =>
    { toast := "Network error. Please check your connection.", rejected := true }
  | .setup _ =>
    { toast := "An unexpected error occurred", rejected := true }

/-! ## Backend Dockerfile (src/unnamed/part_000) -/

/-- Result of one Dockerfile `RUN` layer: its exit code and what it
echoed to the build log. -/
structure RunStep where
  exitCode : ℕ
  logged : List String
deriving DecidableEq, Repr

/-- Shell semantics of `pip install PKG || echo MSG`: when the install
exits non-zero the echo runs (exit 0) and prints the message, so the
layer as a whole always exits 0. -/
def orEchoStep (installExit : ℕ) (msg : String) : RunStep :=
  if installExit = 0 then { exitCode := 0, logged := [] }
  else { exitCode := 0, logged := [msg] }

/-- The four optional OCR install layers of the backend Dockerfile
(part_000 lines 42-46), each with its fallback message. -/
def optionalOCRInstalls : List (String × String) :=
  [("opencv-python-headless==4.8.1.78", "OpenCV install failed, continuing..."),
   ("paddlepaddle==2.5.2", "PaddlePaddle install failed, continuing..."),
   ("paddleocr==2.7.3", "PaddleOCR install failed, continuing..."),
   ("pytesseract==0.3.10", "PyTesseract install failed, continuing...")]

/-- The optional-OCR portion of the image build, as a function of each
package install's exit code. -/
def dockerOCRLayer (installExit : String → ℕ) : List RunStep :=
  optionalOCRInstalls.map (fun pm => orEchoStep (installExit pm.1) pm.2)

/-- A Docker build proceeds past a sequence of layers exactly when every
layer exits 0. -/
def buildProceeds (steps : List RunStep) : Bool :=
  steps.all (fun s => s.exitCode == 0)

/-- State of the backend service after startup. -/
structure ServiceState where
  running : Bool
  engines : List String
deriving DecidableEq, Repr

/-- Modelled from the spec: the backend entrypoint (main.py) is not under
src/, only the Dockerfile that launches it is.  Per the spec, a missing
OCR library is logged and the service continues in a gracefully degraded
mode, so startup succeeds with whichever engines imported. -/
def serviceStart (availableEngines : List String) : ServiceState :=
  { running := true, engines := availableEngines }

/-! ## Backend /ocr/process endpoint (modelled from the spec) -/

/-- Outcome of invoking whichever third-party OCR engine is installed. -/
inductive OCREngineOutcome where
  | ok (text : String) (confidence : ℚ) (boxes : List BoundingBox) (elapsed : ℚ)
  | unavailable

/-- A valid image input: a multipart file whose MIME type is an image
type. -/
def validImage (f : File) : Bool :=
  "image/".data.isPrefixOf f.type.data

/-- An HTTP response of the backend route: status code and JSON body. -/
structure EndpointResponse where
  status : ℕ
  body : OCRResult
deriving DecidableEq, Repr

/-- Modelled from the spec: the backend `POST /ocr/process` route handler
(main.py) is not under src/ — only its frontend callers are.  Per the
spec, the route wraps the installed OCR library's output into a JSON
object with extracted text, a confidence score, bounding boxes and
metadata, returning 200 for a valid image (degrading gracefully to an
empty extraction when no OCR library is installed) and a client error
otherwise. -/
def ocrProcessEndpoint (f : File) (language : String) (threshold : ℚ)
    (eng : OCREngineOutcome) : EndpointResponse :=
  let meta (engine : String) : OCRMetadata :=
    { file_size := f.size, file_type := f.type, processing_engine := engine
      document_type := "general", language_requested := language
      project_id := none, confidence_threshold := threshold
      meta_learning_version := "1.0" }
  if validImage f then
    match eng with
    | .ok t c bs d =>
      { status := 200
        body :=
          { success := true, text := t, confidence := c
            language_detected := language, processing_time := d
            bounding_boxes := bs, metadata := meta "paddleocr"
            meta_learning_applied := false } }
    | .unavailable =>
      { status := 200
        body :=
          { success := true, text := "", confidence := 0
            language_detected := language, processing_time := 0
            bounding_boxes := [], metadata := meta "none"
            meta_learning_applied := false } }
  else
    { status := 400
      body :=
        { success := false, text := "", confidence := 0
          language_detected := language, processing_time := 0
          bounding_boxes := [], metadata := meta "none"
          meta_learning_applied := false } }

/-! ## Sample values used by counterexamples and witnesses -/

/-- A small PNG upload. -/
def sampleFile : File :=
  { name := "doc.png", size := 2048, type := "image/png" }

/-- A concrete parsed backend response. -/
def sampleOCRResult : OCRResult :=
  { success := true
    text := "KERAJAAN MALAYSIA"
    confidence := 0.9
    language_detected := "ms"
    processing_time := 1.2
    bounding_boxes := [{ text := "KERAJAAN MALAYSIA", bbox := (1, 2, 3, 4), confidence := 0.9 }]
    metadata :=
      { file_size := 2048, file_type := "image/png"
        processing_engine := "paddleocr", document_type := "general"
        language_requested := "ms", project_id := none
        confidence_threshold := 0.7, meta_learning_version := "1.0" }
    meta_learning_applied := false }

/-- A demo component state with a file selected. -/
def demoStateWithFile : DemoState :=
  { isProcessing := false, selectedFile := some sampleFile
    selectedLanguage := "ms", result := none, error := none }

/-- Is a fetch outcome a failure (non-OK response or network error)? -/
def isErrOutcome {α : Type} : FetchOutcome α → Bool
  | .ok _ => false
  | .httpError _ _ => true
  | .networkError _ => true

/-! ## Claim theorems -/

/-- C4: the frontend's copies of the API base-URL resolution are
inconsistent — in a browser on `app.mataocr.com` with no
`NEXT_PUBLIC_API_URL` set, the fetch client resolves to localhost, the
named OCRDemo to the production placeholder, and the duplicated copy to
a different hard-coded placeholder, so the three are not all equal. -/
theorem api_base_url_resolvers_disagree :
    ∃ e : BrowserEnv,
      ¬ (apiBaseUrlLib e = getApiBaseUrlDemo e ∧
         getApiBaseUrlDemo e = getApiBaseUrlCopy e) :=
  ⟨{ hostname := some "app.mataocr.com", apiUrl := none }, by decide⟩

/-- C5: no frontend API operation retries a failed request — the fetch
client's request helper, processOCR and uploadFile each issue at most one
request per invocation, and each demo component's processOCR issues at
most one request to `/ocr/process`, whether the call succeeds or fails. -/
theorem frontend_ops_issue_at_most_one_request :
    (∀ (α : Type) (b ep : String) (m : HttpMethod) (bd : RequestBody)
        (hs : List (String × String)) (server : FetchOutcome α),
        (requestHelper b ep m bd hs server).2.length ≤ 1) ∧
    (∀ b f o server, (processOCR b f o server).2.length ≤ 1) ∧
    (∀ b f pid server, (uploadFile b f pid server).2.length ≤ 1) ∧
    (∀ b st server, countToPath (demoProcessOCR b st server).2 "/ocr/process" ≤ 1) ∧
    (∀ b st avail server,
        countToPath (copyProcessOCR b st avail server).2 "/ocr/process" ≤ 1) := by
  refine ⟨?_, ?_, ?_, ?_, ?_⟩
  · intro α b ep m bd hs server
    cases server <;> simp [requestHelper]
  · intro b f o server
    cases server <;> simp [processOCR]
  · intro b f pid server
    cases server <;> simp [uploadFile]
  · intro b st server
    rcases st with ⟨ip, sf, sl, res, err⟩
    cases sf with
    | none => cases server <;> simp [demoProcessOCR, countToPath]
    | some f =>
      cases server <;> simp [demoProcessOCR, countToPath] <;> split <;> simp
  · intro b st avail server
    rcases st with ⟨ip, sf, sl, res, err⟩
    cases sf with
    | none => cases server <;> simp [copyProcessOCR, countToPath]
    | some f =>
      cases avail <;> cases server <;>
        simp [copyProcessOCR, countToPath, healthCheckRequest]

/-- C6 counterexample: not every frontend request is a plain fetch
without cancellation — with a file selected and the backend unavailable,
the duplicated demo's processOCR issues a health probe that attaches
`AbortSignal.timeout(3000)`, and the axios client configures a 30-second
client timeout. -/
theorem health_probe_attaches_abort_timeout :
    (copyProcessOCR "http://localhost:8000" demoStateWithFile false
        (.ok sampleOCRResult)).2.all plainRequest = false ∧
    (healthCheckRequest "http://localhost:8000").signalTimeoutMs = some 3000 ∧
    (mataOCRClientConfig { hostname := none, apiUrl := none }).timeoutMs =
      some 30000 := by
  decide

/-- C6 amended: every request issued by the fetch-based API client
(request helper, processOCR, uploadFile) and by the named OCRDemo
component attaches neither an abort signal nor a client-side timeout;
the exceptions are the duplicated demo's backend-availability probe,
which attaches a 3-second abort signal, and the axios client, whose
configuration sets a 30-second timeout. -/
theorem fetch_requests_carry_no_cancellation :
    (∀ (α : Type) (b ep : String) (m : HttpMethod) (bd : RequestBody)
        (hs : List (String × String)) (server : FetchOutcome α),
        (requestHelper b ep m bd hs server).2.all plainRequest = true) ∧
    (∀ b f o server, (processOCR b f o server).2.all plainRequest = true) ∧
    (∀ b f pid server, (uploadFile b f pid server).2.all plainRequest = true) ∧
    (∀ b st server, (demoProcessOCR b st server).2.all plainRequest = true) ∧
    (∀ b, (healthCheckRequest b).signalTimeoutMs = some 3000) ∧
    (∀ e, (mataOCRClientConfig e).timeoutMs = some 30000) := by
  refine ⟨?_, ?_, ?_, ?_, ?_, ?_⟩
  · intro α b ep m bd hs server
    cases server <;> simp [requestHelper, plainRequest]
  · intro b f o server
    cases server <;> simp [processOCR, processOCRRequest, plainRequest]
  · intro b f pid server
    cases server <;> simp [uploadFile, plainRequest]
  · intro b st server
    rcases st with ⟨ip, sf, sl, res, err⟩
    cases sf with
    | none => cases server <;> simp [demoProcessOCR]
    | some f =>
      cases server <;> simp [demoProcessOCR, plainRequest] <;> split <;> simp
  · intro b
    rfl
  · intro e
    rfl

/-- C8: the query string built by the API client's processOCR contains a
`confidence_threshold` parameter exactly when the option is provided and
non-zero — an explicit threshold of 0 yields the same parameter list as
omitting the option, and likewise an empty-string language is dropped. -/
theorem confidence_threshold_param_truthiness :
    ∀ o : ProcessOCROptions,
      hasParam (processOCRParams o) "confidence_threshold" =
        numTruthy o.confidence_threshold ∧
      processOCRParams { o with confidence_threshold := some 0 } =
        processOCRParams { o with confidence_threshold := none } ∧
      hasParam (processOCRParams o) "language" = strTruthy o.language ∧
      processOCRParams { o with language := some "" } =
        processOCRParams { o with language := none } := by
  intro o
  rcases o with ⟨l, p, c⟩
  refine ⟨?_, ?_, ?_, ?_⟩ <;>
    rcases l with _ | l <;> rcases p with _ | p <;> rcases c with _ | c <;>
      simp [processOCRParams, optStrParam, optNumParam, hasParam,
        numTruthy, strTruthy, List.any_append] <;>
      split_ifs <;> simp_all

/-- C1 counterexample: a call to the API client's processOCR that
resolves successfully need not carry the language and
confidence_threshold parameters — with the default (empty) options the
call resolves, yet the issued request's query string contains neither
parameter. -/
theorem processOCR_default_options_drop_params :
    (processOCR "http://localhost:8000" sampleFile {} (.ok sampleOCRResult)).1 =
      .ok sampleOCRResult ∧
    hasParam (processOCRRequest "http://localhost:8000" sampleFile {}).query
      "language" = false ∧
    hasParam (processOCRRequest "http://localhost:8000" sampleFile {}).query
      "confidence_threshold" = false :=
  ⟨rfl, by decide, by decide⟩

/-- C1 amended: for every call to the API client's processOCR that
resolves successfully, the request issued is a POST to the /ocr/process
endpoint carrying the file as the sole multipart form-data field, with
the language and confidence_threshold options carried as query
parameters exactly when they are provided and truthy (non-empty,
respectively non-zero); the parsed result is the response's OCRResult
object, which carries an extracted text string, a numeric confidence
score, a list of bounding boxes (each with a text, a 4-tuple bbox and a
confidence) and a metadata record. -/
theorem processOCR_request_and_result_shape :
    ∀ (b : String) (f : File) (o : ProcessOCROptions) (r : OCRResult),
      processOCR b f o (.ok r) = (.ok r, [processOCRRequest b f o]) ∧
      (processOCRRequest b f o).method = .POST ∧
      (processOCRRequest b f o).path = "/ocr/process" ∧
      (processOCRRequest b f o).body = .formData [("file", .file f)] ∧
      hasParam (processOCRRequest b f o).query "language" = strTruthy o.language ∧
      hasParam (processOCRRequest b f o).query "confidence_threshold" =
        numTruthy o.confidence_threshold := by
  intro b f o r
  refine ⟨rfl, rfl, rfl, rfl, ?_, ?_⟩ <;>
    rcases o with ⟨l, p, c⟩ <;>
      rcases l with _ | l <;> rcases p with _ | p <;> rcases c with _ | c <;>
        simp [processOCRRequest, processOCRParams, optStrParam, optNumParam,
          hasParam, numTruthy, strTruthy, List.any_append] <;>
        split_ifs <;> simp_all

/-- C2: for every valid image input, the POST /ocr/process endpoint
(modelled from the spec, since the backend route handler is not under
src/) returns an HTTP 200 response whose JSON body contains a text
field — the extracted text when an OCR engine ran. -/
theorem ocr_endpoint_valid_image_ok :
    ∀ (f : File) (language : String) (threshold : ℚ) (eng : OCREngineOutcome),
      validImage f = true →
      (ocrProcessEndpoint f language threshold eng).status = 200 ∧
      ∀ t c bs d,
        (ocrProcessEndpoint f language threshold (.ok t c bs d)).body.text = t := by
  intro f language threshold eng h
  constructor
  · cases eng <;> simp [ocrProcessEndpoint, h]
  · intro t c bs d
    simp [ocrProcessEndpoint, h]

/-- C2 witness: a concrete valid PNG input gives a 200 response with the
engine's text. -/
theorem ocr_endpoint_valid_image_ok_witness :
    (ocrProcessEndpoint sampleFile "ms" 0.7 .unavailable).status = 200 ∧
    ∀ t c bs d,
      (ocrProcessEndpoint sampleFile "ms" 0.7 (.ok t c bs d)).body.text = t :=
  ocr_endpoint_valid_image_ok sampleFile "ms" 0.7 .unavailable (by decide)

/-- C3: every failed frontend OCR or API request surfaces an error to
the user — the axios response interceptor raises a non-empty toast
(the network message when no response arrived) and still rejects the
error to the caller; the named OCRDemo's catch path sets a visible error
message on a non-OK response, a network failure, or a response with
`success: false`; and the duplicated demo copy substitutes the
hard-coded mock OCR result (with the demo-mode notice) whenever the
backend is unavailable or the request fails. -/
theorem frontend_failures_surface_errors :
    (∀ e : AxiosFailure,
      (responseErrorInterceptor e).toast ≠ "" ∧
      (responseErrorInterceptor e).rejected = true) ∧
    (responseErrorInterceptor .request).toast =
      "Network error. Please check your connection." ∧
    (∀ (b : String) (st : DemoState) (f : File) (s : ℕ) (d : Option String),
      st.selectedFile = some f →
      ((demoProcessOCR b st (.httpError s d)).1.error.isSome = true)) ∧
    (∀ (b : String) (st : DemoState) (f : File) (m : String),
      st.selectedFile = some f →
      ((demoProcessOCR b st (.networkError m)).1.error.isSome = true)) ∧
    (∀ (b : String) (st : DemoState) (f : File) (r : OCRResult),
      st.selectedFile = some f → r.success = false →
      ((demoProcessOCR b st (.ok r)).1.error.isSome = true)) ∧
    (∀ (b : String) (st : DemoState) (f : File) (avail : Bool)
        (server : FetchOutcome OCRResult),
      st.selectedFile = some f →
      (avail = false ∨ isErrOutcome server = true) →
      (copyProcessOCR b st avail server).1.result =
        some (mockResultCopy st.selectedLanguage (some f)) ∧
      (copyProcessOCR b st avail server).1.error = some demoModeNotice) := by
  refine ⟨?_, rfl, ?_, ?_, ?_, ?_⟩
  · intro e
    cases e with
    | response d m s =>
      rcases d with _ | d <;> rcases m with _ | m <;>
        simp [responseErrorInterceptor, jsStrOr] <;> split_ifs <;> simp_all
    | request => exact ⟨by decide, rfl⟩
    | setup m =>
      have hne : ("An unexpected error occurred" : String) ≠ "" := by decide
      exact ⟨hne, rfl⟩
  · intro b st f s d h
    rcases st with ⟨ip, sf, sl, res, err⟩
    simp only at h
    subst h
    cases d <;> simp [demoProcessOCR]
  · intro b st f m h
    rcases st with ⟨ip, sf, sl, res, err⟩
    simp only at h
    subst h
    simp [demoProcessOCR]
  · intro b st f r h hr
    rcases st with ⟨ip, sf, sl, res, err⟩
    simp only at h
    subst h
    simp [demoProcessOCR, hr]
  · intro b st f avail server h hfail
    rcases st with ⟨ip, sf, sl, res, err⟩
    simp only at h
    subst h
    rcases hfail with hfail | hfail
    · subst hfail
      cases server <;> simp [copyProcessOCR, copyMockFallback]
    · cases avail <;> cases server <;>
        simp_all [copyProcessOCR, copyMockFallback, isErrOutcome]

/-- C3 witness: with a file selected, a 500 response leaves the named
demo with a visible error message, and the duplicated copy substitutes
the mock result when the backend probe fails. -/
theorem frontend_failures_surface_errors_witness :
    ((demoProcessOCR "http://localhost:8000" demoStateWithFile
        (.httpError 500 none)).1.error.isSome = true) ∧
    ((copyProcessOCR "http://localhost:8000" demoStateWithFile false
        (.networkError "down")).1.result =
      some (mockResultCopy demoStateWithFile.selectedLanguage (some sampleFile)) ∧
     (copyProcessOCR "http://localhost:8000" demoStateWithFile false
        (.networkError "down")).1.error = some demoModeNotice) :=
  ⟨frontend_failures_surface_errors.2.2.1 "http://localhost:8000"
      demoStateWithFile sampleFile 500 none rfl,
   frontend_failures_surface_errors.2.2.2.2.2 "http://localhost:8000"
      demoStateWithFile sampleFile false (.networkError "down") rfl
      (Or.inl rfl)⟩

/-- C7: each optional OCR package installation step of the backend
Dockerfile (OpenCV, PaddlePaddle, PaddleOCR, PyTesseract) that fails
emits its 'continuing' message and still exits 0, so the build proceeds
whatever the install outcomes; and (modelled from the spec) the backend
service starts with whichever engines are available. -/
theorem optional_ocr_installs_continue :
    ∀ installExit : String → ℕ,
      buildProceeds (dockerOCRLayer installExit) = true ∧
      (∀ pkg msg, (pkg, msg) ∈ optionalOCRInstalls → installExit pkg ≠ 0 →
        (orEchoStep (installExit pkg) msg).exitCode = 0 ∧
        (orEchoStep (installExit pkg) msg).logged = [msg] ∧
        strIncludes msg "continuing" = true) ∧
      (∀ engines, (serviceStart engines).running = true) := by
  intro installExit
  refine ⟨?_, ?_, fun engines => rfl⟩
  · simp only [buildProceeds, dockerOCRLayer, optionalOCRInstalls, List.map,
      List.all_cons, List.all_nil, orEchoStep]
    split_ifs <;> simp
  · intro pkg msg hmem hfail
    refine ⟨?_, ?_, ?_⟩
    · unfold orEchoStep
      split_ifs <;> rfl
    · simp [orEchoStep, hfail]
    · simp [optionalOCRInstalls] at hmem
      rcases hmem with ⟨-, rfl⟩ | ⟨-, rfl⟩ | ⟨-, rfl⟩ | ⟨-, rfl⟩ <;> decide

/-- C7 witness: with every install failing, the build still proceeds and
the OpenCV step logs its continuing message. -/
theorem optional_ocr_installs_continue_witness :
    buildProceeds (dockerOCRLayer (fun _ => 1)) = true ∧
    (orEchoStep 1 "OpenCV install failed, continuing...").exitCode = 0 ∧
    (orEchoStep 1 "OpenCV install failed, continuing...").logged =
      ["OpenCV install failed, continuing..."] ∧
    strIncludes "OpenCV install failed, continuing..." "continuing" = true :=
  ⟨(optional_ocr_installs_continue (fun _ => 1)).1,
   (optional_ocr_installs_continue (fun _ => 1)).2.1
      "opencv-python-headless==4.8.1.78" "OpenCV install failed, continuing..."
      (by decide) (by decide)⟩

/-- Helper: for inputs below `1024 ^ 4` the unit index stays below 4. -/
lemma natLog1024_lt (b : ℕ) (hb : 1 ≤ b) (h : b < 1024 ^ 4) :
    Nat.log 1024 b < 4 :=
  Nat.log_lt_of_lt_pow (by omega) h

/-- Helper: under exact real arithmetic, the JavaScript unit index
`Math.floor(Math.log(bytes) / Math.log(1024))` is the integer base-1024
logarithm. -/
lemma floor_log_ratio (b : ℕ) (hb : 1 ≤ b) :
    ⌊Real.log b / Real.log 1024⌋ = (Nat.log 1024 b : ℤ) := by
  have hb0 : b ≠ 0 := by omega
  have hbpos : (0 : ℝ) < (b : ℝ) := by exact_mod_cast Nat.pos_of_ne_zero hb0
  have hlogpos : (0 : ℝ) < Real.log 1024 := Real.log_pos (by norm_num)
  set k := Nat.log 1024 b with hk
  have hlowR : (1024 : ℝ) ^ k ≤ (b : ℝ) := by
    exact_mod_cast Nat.pow_log_le_self 1024 hb0
  have hhighR : (b : ℝ) < (1024 : ℝ) ^ (k + 1) := by
    exact_mod_cast Nat.lt_pow_succ_log_self (by norm_num) b
  have hpowpos : (0 : ℝ) < (1024 : ℝ) ^ k := by positivity
  have h1 : (k : ℝ) * Real.log 1024 ≤ Real.log b := by
    have := (Real.log_le_log_iff hpowpos hbpos).mpr hlowR
    rwa [Real.log_pow] at this
  have h2 : Real.log b < ((k : ℝ) + 1) * Real.log 1024 := by
    have := Real.log_lt_log hbpos hhighR
    rwa [Real.log_pow, Nat.cast_add, Nat.cast_one] at this
  rw [Int.floor_eq_iff]
  constructor
  · rw [le_div_iff hlogpos]
    push_cast
    exact h1
  · rw [div_lt_iff hlogpos]
    push_cast
    exact h2

/-- C10: formatFileSize maps 0 to the special-cased display, and for
every positive byte count below 1024^4 it divides by 1024 to the unit
index, rounds to two decimal places, and picks the unit at index
`floor(log(bytes) / log(1024))` of the unit array, that index always
being within the bounds of the array on this range. -/
theorem formatFileSize_contract :
    formatFileSize 0 = { value := 0, unit := "Bytes" } ∧
    ∀ b : ℕ, 1 ≤ b → b < 1024 ^ 4 →
      ⌊Real.log b / Real.log 1024⌋ = (Nat.log 1024 b : ℤ) ∧
      Nat.log 1024 b < sizes.length ∧
      formatFileSize b =
        { value := round2 ((b : ℚ) / (1024 : ℚ) ^ Nat.log 1024 b)
          unit := sizes.getD (Nat.log 1024 b) "" } := by
  refine ⟨rfl, ?_⟩
  intro b hb hlt
  refine ⟨floor_log_ratio b hb, ?_, ?_⟩
  · have h4 := natLog1024_lt b hb hlt
    simpa [sizes] using h4
  · unfold formatFileSize
    rw [if_neg (by omega)]

/-- C10 witness: the contract applied at 2048 bytes. -/
theorem formatFileSize_contract_witness :
    ⌊Real.log (2048 : ℕ) / Real.log 1024⌋ = (Nat.log 1024 2048 : ℤ) ∧
    Nat.log 1024 2048 < sizes.length ∧
    formatFileSize 2048 =
      { value := round2 ((2048 : ℚ) / (1024 : ℚ) ^ Nat.log 1024 2048)
        unit := sizes.getD (Nat.log 1024 2048) "" } :=
  formatFileSize_contract.2 2048 (by norm_num) (by norm_num)

/-- C9: with the default configuration, validateFile accepts a file
exactly when its size is at most 10485760 bytes (a file of exactly the
maximum size is accepted, since rejection requires a strictly larger
size) and its MIME type is one of image/jpeg, image/png, image/jpg,
application/pdf; in every other case it returns valid false with a
non-empty error message, the size check taking precedence; the demo
component's hard-coded copy accepts under the same condition. -/
theorem validateFile_contract :
    ∀ f : File,
      ((validateFile maxSizeDefault allowedTypesDefault f).valid = true ↔
        f.size ≤ maxSizeDefault ∧ f.type ∈ allowedTypesDefault) ∧
      ((validateFile maxSizeDefault allowedTypesDefault f).valid = false →
        ∃ e, (validateFile maxSizeDefault allowedTypesDefault f).error = some e ∧
          e ≠ "") ∧
      (maxSizeDefault < f.size →
        (validateFile maxSizeDefault allowedTypesDefault f).error =
          some "File too large. Maximum size: 10.0MB") ∧
      ((demoValidateFile f).valid = true ↔
        f.size ≤ 10 * 1024 * 1024 ∧ f.type ∈ allowedTypesDefault) := by
  intro f
  have hq : ((maxSizeDefault : ℚ) / 1024 / 1024) = 10 := by
    norm_num [maxSizeDefault]
  have hfix : toFixed1 ((maxSizeDefault : ℚ) / 1024 / 1024) = "10.0" := by
    rw [hq]
    show toString (⌊(10 : ℚ) * 10 + 1 / 2⌋ / 10) ++ "." ++
      toString (⌊(10 : ℚ) * 10 + 1 / 2⌋ % 10) = "10.0"
    rw [show ⌊(10 : ℚ) * 10 + 1 / 2⌋ = 100 by norm_num]
    decide
  have hmsg : ("File too large. Maximum size: " ++
      toFixed1 ((maxSizeDefault : ℚ) / 1024 / 1024) ++ "MB") =
      "File too large. Maximum size: 10.0MB" := by
    rw [hfix]
    decide
  refine ⟨?_, ?_, ?_, ?_⟩
  · unfold validateFile
    by_cases h1 : maxSizeDefault < f.size
    · rw [if_pos h1]
      simp only [Bool.false_eq_true, false_iff, not_and]
      intro hs
      omega
    · rw [if_neg h1]
      by_cases hmem : f.type ∈ allowedTypesDefault
      · rw [if_neg (by simp [hmem])]
        simp only [true_iff]
        exact ⟨by omega, hmem⟩
      · rw [if_pos (by simp [hmem])]
        simp only [Bool.false_eq_true, false_iff, not_and]
        intro hs
        exact hmem
  · unfold validateFile
    split_ifs with h1 h2 <;> intro hv
    · exact ⟨_, rfl, by rw [hmsg]; decide⟩
    · exact ⟨_, rfl, by decide⟩
    · cases hv
  · intro h1
    unfold validateFile
    rw [if_pos h1, hmsg]
  · unfold demoValidateFile
    by_cases h1 : 10 * 1024 * 1024 < f.size
    · rw [if_pos h1]
      simp only [Bool.false_eq_true, false_iff, not_and]
      intro hs
      omega
    · rw [if_neg h1]
      by_cases hmem : f.type ∈ allowedTypesDefault
      · rw [if_neg (by simp [hmem])]
        simp only [true_iff]
        exact ⟨by omega, hmem⟩
      · rw [if_pos (by simp [hmem])]
        simp only [Bool.false_eq_true, false_iff, not_and]
        intro hs
        exact hmem

/-- C9 witness: the contract applied at an oversized file of a
disallowed type, showing rejection with the size message. -/
theorem validateFile_contract_witness :
    (validateFile maxSizeDefault allowedTypesDefault
        { name := "big.bin", size := 10485761, type := "text/plain" }).error =
      some "File too large. Maximum size: 10.0MB" :=
  (validateFile_contract
      { name := "big.bin", size := 10485761, type := "text/plain" }).2.2.1
    (by decide)

end MataOCR
